import Mathlib

/-!
Verification development for the two GL coherent-memory test programs
`fill_ssbo_coherent.cpp` and `map_and_draw_coherent.cpp`.

The C code is shallowly embedded: machine integers are modelled as `Nat`
(for `uint32_t`/`GLuint`/`uint` values, with explicit `% 2^32` wherever the
C arithmetic can wrap) and `Int` (for C `int` values), mapped GPU buffers
are modelled as total functions from indices to byte/word values, and the
three ways a run can end (`return 0` / `exit(EXIT_SKIP)` /
`exit(EXIT_FAILURE)`) are modelled by the inductive `ExitCode`.
Driver-dependent behaviour (window creation, GLAD loading, the extension
set, `glGetError` results, what the GPU actually wrote) is passed in as an
explicit environment.
-/

/-- Outcome of a process run: `return 0` (pass), `exit(EXIT_SKIP)` (the skip
sentinel for unsupported feature / insufficient memory), or
`exit(EXIT_FAILURE)` (the generic failure code). -/
inductive ExitCode where
  | success
  | skip
  | failure
  deriving DecidableEq

/-! ## fill_ssbo_coherent.cpp -/

namespace FillSsbo

/-- `static const int values_count = 45000;` -/
def values_count : Nat := 45000

/-- `static const int fill_value_a = 0b01010101010101010101010101010101;` -/
def fill_value_a : Int := 0b01010101010101010101010101010101

/-- `static const int fill_value_b = 0b11010111110101111101011111010111;`
The binary literal is `0xD7D7D7D7`, which exceeds `INT_MAX`; stored in an
`int` it wraps to the negative two's-complement value. -/
def fill_value_b : Int := (0b11010111110101111101011111010111 : Int) - 4294967296

/-- The GL error code `GL_NO_ERROR` (0). -/
def GL_NO_ERROR : Nat := 0

/-- The GL error code `GL_OUT_OF_MEMORY` (0x0505). -/
def GL_OUT_OF_MEMORY : Nat := 1285

/-- 2^32, the modulus of `uint32_t`/`uint` arithmetic. -/
def U32 : Nat := 4294967296

/-- A `Nat` reduced to a `uint32_t` value. -/
def u32 (n : Nat) : Nat := n % U32

/-- `uint32_t` subtraction `a - b` (wraps modulo 2^32). -/
def u32sub (a b : Nat) : Nat := (a + (U32 - u32 b)) % U32

/-- `struct test_case { uint32_t stride; uint32_t offset; }` -/
structure test_case where
  stride : Nat
  offset : Nat
  deriving DecidableEq

/-- `void check_error(void)`: reads `glGetError()`; `GL_NO_ERROR` falls
through (returns normally, modelled as `none`), `GL_OUT_OF_MEMORY` exits
with `EXIT_SKIP`, any other code exits with `EXIT_FAILURE`. -/
def check_error (error : Nat) : Option ExitCode :=
  if error = GL_NO_ERROR then none
  else if error = GL_OUT_OF_MEMORY then some ExitCode.skip
  else some ExitCode.failure

/-- `static void require_extension(const char* extension, int gl_version = GLAD_GL_VERSION_4_4)`.
`extSupported` is the driver's `glfwExtensionSupported` predicate and
`gl_version` the truth of `GLAD_GL_VERSION_4_4`.  Faithful to the source,
the support query is made on the literal string `"extension"`, not on the
parameter: `if (!gl_version && !glfwExtensionSupported("extension"))`.
On the skip path it writes `error: %s not supported` (with the parameter)
to stderr and exits with `EXIT_SKIP`; `none` means it returns normally. -/
def require_extension (extSupported : String → Bool) (ext_name : String)
    (gl_version : Bool) : Option (ExitCode × String) :=
  if !gl_version && !extSupported "extension" then
    some (ExitCode.skip, "error: " ++ ext_name ++ " not supported")
  else
    none

/-- `void init_test_cases()`: the seven stride/offset pairs, computed in
`uint32_t` arithmetic from the (truncated) system page size. -/
def init_test_cases (page_size : Nat) : List test_case :=
  let p := u32 page_size
  [⟨2, 0⟩,
   ⟨p, p⟩,
   ⟨p, u32sub p 4⟩,
   ⟨p, u32 (p + 4)⟩,
   ⟨p, u32 (p * 2)⟩,
   ⟨p, u32 (p * 2 + 4)⟩,
   ⟨p, u32sub (p * 2) 4⟩]

/-- A mapped buffer viewed as bytes: index (relative to the start of the
buffer object) to byte value. -/
abbrev Buffer := Nat → Nat

/-- The byte a C `memset` stores when handed the `int` `v`
(conversion to `unsigned char`). -/
def byte_of_int (v : Int) : Nat := (v % 256).toNat

/-- `memset(p + start, c, n)` on a byte-indexed buffer. -/
def memset (buf : Buffer) (start : Nat) (c : Int) (n : Nat) : Buffer :=
  fun i => if start ≤ i ∧ i < start + n then byte_of_int c else buf i

/-- `static GLuint init_ssbo(void)`: allocates a `values_count * 4`-byte
coherent SSBO, maps it whole and `memset`s it with `fill_value_a`.
`uninit` is the (arbitrary) content of the fresh allocation. -/
def init_ssbo (uninit : Buffer) : Buffer :=
  memset uninit 0 fill_value_a (values_count * 4)

/-- `int* map_ssbo(const GLuint ssbo, const uint32_t offset)`: maps the
range `[offset, values_count * 4)` and `memset`s those
`values_count * 4 - offset` bytes with `fill_value_b`. -/
def map_ssbo (buf : Buffer) (offset : Nat) : Buffer :=
  memset buf offset fill_value_b (values_count * 4 - offset)

/-- The three buffers `buff_a`, `buff_b`, `buff_c` of `test_script` right
after their `init_ssbo` + `map_ssbo` setup (before any compute dispatch).
`u1 u2 u3` are the arbitrary initial contents of the three allocations. -/
def test_script_buffers (one : test_case) (u1 u2 u3 : Buffer) : List Buffer :=
  [map_ssbo (init_ssbo u1) one.offset,
   map_ssbo (init_ssbo u2) one.offset,
   map_ssbo (init_ssbo u3) one.offset]

/-- A mapped buffer viewed at `int` (4-byte word) granularity: element index
to stored `int` value.  When `4 ∣ offset`, byte `4*i .. 4*i+3` patterns of
`0x55` resp. `0xD7` correspond exactly to the element values `fill_value_a`
resp. `fill_value_b`, so the byte-level `memset`s of `init_ssbo`/`map_ssbo`
act on whole elements. -/
abbrev EBuffer := Nat → Int

/-- `init_ssbo` at element granularity: all `values_count` elements become
`fill_value_a` (bytes `0x55 0x55 0x55 0x55`). -/
def init_ssbo_elems (uninit : EBuffer) : EBuffer :=
  fun i => if i < values_count then fill_value_a else uninit i

/-- `map_ssbo` at element granularity (requires `4 ∣ offset`): elements
`[offset/4, values_count)` become `fill_value_b` (bytes `0xD7 ...`).
`off4` is `offset / 4`. -/
def map_ssbo_elems (buf : EBuffer) (off4 : Nat) : EBuffer :=
  fun i => if off4 ≤ i ∧ i < values_count then fill_value_b else buf i

/-- One run of `compute_shader_text` over `glDispatchCompute(45, 1, 1)` with
`local_size_x = 1000`: invocation `x` ranges over `[0, 45 * 1000)`; the
shader stores `value` into `data[x]` exactly when
`start_bound <= x < end_bound` and `mod(x, stride) == 0`. -/
def compute_shader_write (stride start_bound end_bound : Nat) (value : Int)
    (buf : EBuffer) : EBuffer :=
  fun x =>
    if x < 45 * 1000 ∧ start_bound ≤ x ∧ x < end_bound ∧ x % stride = 0 then value
    else buf x

/-- `void compute_exec(...)`: sets the uniforms
`stride := one.stride`, `start_bound := std::max(one.offset, start_bound)`,
`end_bound := end_bound`, `value := value` and dispatches the compute
shader on the bound SSBO. -/
def compute_exec (one : test_case) (start_bound end_bound : Nat) (value : Int)
    (buf : EBuffer) : EBuffer :=
  compute_shader_write one.stride (max one.offset start_bound) end_bound value buf

/-- A sequence of `compute_exec` calls (the stages of `test_script` that
target one particular buffer), each given as
`(start_bound, end_bound, value)`. -/
def run_stages (one : test_case) (stages : List (Nat × Nat × Int))
    (buf : EBuffer) : EBuffer :=
  stages.foldl (fun b s => compute_exec one s.1 s.2.1 s.2.2 b) buf

/-- `bool probe_offseted_part_of_ssbo(const GLuint ssbo, const test_case one)`:
returns `true` immediately when `one.offset == 0`; otherwise remaps the
range `[0, one.offset)` and checks that all `one.offset / 4` leading
elements still hold `fill_value_a`. -/
def probe_offseted_part_of_ssbo (buf : EBuffer) (one : test_case) : Bool :=
  if one.offset = 0 then true
  else (List.range (one.offset / 4)).all (fun i => buf i == fill_value_a)

/-- The `int` value a `uint` bit pattern denotes after the (gcc/clang)
conversion to a signed 32-bit integer. -/
def toInt32 (n : Nat) : Int :=
  if n < 2147483648 then (n : Int) else (n : Int) - 4294967296

/-- Loop-1 body test of `probe_value_in_range` at loop index `i`:
`shifted_index % one.stride != 0 && data[i] != fill_value_b`.
`shifted_index = i + one.offset / 4` is computed in `uint` arithmetic
before the `%` (the `int` operand is converted to `uint`). -/
def probe_pred1 (data : Int → Int) (off4 stride : Nat) (i : Nat) : Bool :=
  decide (u32 (i + off4) % stride ≠ 0) && decide (data (Int.ofNat i) ≠ fill_value_b)

/-- Loop-2 body test of `probe_value_in_range` at the loop counter whose
`uint` bit pattern is `u`:
`shifted_index % one.stride == 0 && data[i] != value`, where the array is
indexed with the `int` value of `u`. -/
def probe_pred2 (data : Int → Int) (off4 stride : Nat) (value : Int) (u : Nat) : Bool :=
  decide (u32 (u + off4) % stride = 0) && decide (data (toInt32 u) ≠ value)

/-- First loop of `probe_value_in_range`:
`for (int i = 0; i < values_count - one.offset / 4; i++)` with the bound
computed in `uint` arithmetic (the `int` loop counter is converted to
`uint` for the comparison); returns the first violating index. -/
def probe_loop1 (data : Int → Int) (one : test_case) : Option Nat :=
  (List.range (u32sub values_count (u32 one.offset / 4))).find?
    (probe_pred1 data (u32 one.offset / 4) one.stride)

/-- Second loop of `probe_value_in_range`:
`for (int i = start_bound - one.offset / 4; i < end_bound - one.offset / 4; i++)`.
Both bounds are computed in `uint` arithmetic; the `int` counter starts at
the bit pattern `start_bound - off4` and runs while its `uint` value is
below `end_bound - off4`, so the iterations are exactly the `uint` values
in `[start_bound - off4, end_bound - off4)` (none when the wrapped start
is not below the wrapped end).  Returns the first violating counter
pattern. -/
def probe_loop2 (data : Int → Int) (one : test_case) (start_bound end_bound : Nat)
    (value : Int) : Option Nat :=
  ((List.range (u32sub end_bound (u32 one.offset / 4) -
      u32sub start_bound (u32 one.offset / 4))).map
    (fun k => u32sub start_bound (u32 one.offset / 4) + k)).find?
    (probe_pred2 data (u32 one.offset / 4) one.stride value)

/-- Result of a probe: the returned `bool` and the `printf`-ed
`(index, value)` pairs. -/
structure probe_result where
  ok : Bool
  printed : List (Int × Int)
  deriving DecidableEq

/-- `bool probe_value_in_range(int* data, const test_case one, const uint
start_bound, const uint end_bound, const int value)`: scans the whole
mapped region for stale non-stride bytes, then the requested sub-range for
the dispatched value; on the first violation prints the index and the read
value and returns `false`. -/
def probe_value_in_range (data : Int → Int) (one : test_case)
    (start_bound end_bound : Nat) (value : Int) : probe_result :=
  match probe_loop1 data one with
  | some i => ⟨false, [(Int.ofNat i, data (Int.ofNat i))]⟩
  | none =>
    match probe_loop2 data one start_bound end_bound value with
    | some u => ⟨false, [(toInt32 u, data (toInt32 u))]⟩
    | none => ⟨true, []⟩

/-- Driver/OS-dependent inputs of one run of `fill_ssbo_coherent`. -/
structure FillEnv where
  /-- `glfwCreateWindow` returned a non-null window. -/
  windowOk : Bool
  /-- `gladLoadGLLoader` succeeded. -/
  gladOk : Bool
  /-- `GLAD_GL_VERSION_4_4` is nonzero. -/
  gl44 : Bool
  /-- `glfwExtensionSupported`. -/
  extSupported : String → Bool
  /-- `getSystemPageSize()`. -/
  pageSize : Nat
  /-- The outcome of `test_script(test_cases[i])` for loop index `i`
  (driver-dependent: it reflects what the GPU actually wrote). -/
  testResult : Nat → Bool

/-- The four `require_extension` calls of `main`, in source order; the
first one that exits wins. -/
def require_all (extSupported : String → Bool) (gl44 : Bool) :
    Option (ExitCode × String) :=
  (require_extension extSupported "GL_ARB_uniform_buffer_object" gl44).orElse fun _ =>
  (require_extension extSupported "GL_ARB_buffer_storage" gl44).orElse fun _ =>
  (require_extension extSupported "GL_ARB_map_buffer_range" gl44).orElse fun _ =>
  require_extension extSupported "GL_VMWX_map_buffer_debug" gl44

/-- `int main(int argc, char** argv)` of `fill_ssbo_coherent.cpp`.
Returns the exit code together with the `Test failed ...` lines printed by
the test loop.  Note the loop accumulates `pass = test_script(...) && pass`
and prints whenever the accumulated flag is false, and the final statement
is `return 0 ;` — the commented-out `pass ? 0 : EXIT_FAILURE` is dead. -/
def main (argv : List String) (env : FillEnv) : ExitCode × List String :=
  if !env.windowOk then (ExitCode.skip, [])
  else if !env.gladOk then (ExitCode.failure, [])
  else
    match require_all env.extSupported env.gl44 with
    | some (e, msg) => (e, [msg])
    | none =>
      let cases := init_test_cases env.pageSize
      let st := (List.range 7).foldl
        (fun (st : Bool × List String) i =>
          let pass := env.testResult i && st.1
          if !pass then
            let tc := cases.getD i ⟨0, 0⟩
            (pass, st.2 ++ ["Test failed  with offset: " ++ toString tc.offset ++
              " stride: " ++ toString tc.stride ++ " "])
          else (pass, st.2))
        (true, [])
      (ExitCode.success, st.2)

/-- A run in which the driver set-up succeeds (GL 4.4 available) but every
`test_script` call fails. -/
def fillEnvAllFail : FillEnv :=
  ⟨true, true, true, fun _ => false, 4096, fun _ => false⟩

/-- An extension predicate supporting exactly the four extensions the
programs require (and in particular not one literally named
`"extension"`). -/
def suppFour : String → Bool := fun s =>
  s == "GL_ARB_uniform_buffer_object" || s == "GL_ARB_buffer_storage" ||
  s == "GL_ARB_map_buffer_range" || s == "GL_VMWX_map_buffer_debug"

/-- A mapped region whose every element reads back `fill_value_b`
(i.e. a run in which the compute dispatch had no visible effect). -/
def dataB : Int → Int := fun _ => fill_value_b

/-- `test_cases[1]` on a system with 4096-byte pages:
stride = page size, offset = page size. -/
def first_page_case : test_case := ⟨4096, 4096⟩

/-- `const uint32_t one_third = values_count / 3;` of `test_script`. -/
def one_third : Nat := values_count / 3

/-- `const int32_t modifed_value = 0b0101010101010101010101010101010;` -/
def modifed_value : Int := 0b0101010101010101010101010101010

/-- The claim's notion of an offset that "sits exactly 4 bytes before or
after a page boundary": its distance to the nearest multiple of the page
size `p` is exactly 4. -/
def near_page_boundary (p : Nat) (tc : test_case) : Bool :=
  decide (tc.offset % p = 4) || decide (tc.offset % p = p - 4)

end FillSsbo

/-! ## map_and_draw_coherent.cpp -/

namespace MapDraw

/-- `void check_error(void)` of `map_and_draw_coherent.cpp` — same switch
as in `fill_ssbo_coherent.cpp`: `GL_NO_ERROR` returns normally,
`GL_OUT_OF_MEMORY` exits `EXIT_SKIP`, anything else exits `EXIT_FAILURE`. -/
def check_error (error : Nat) : Option ExitCode :=
  if error = FillSsbo.GL_NO_ERROR then none
  else if error = FillSsbo.GL_OUT_OF_MEMORY then some ExitCode.skip
  else some ExitCode.failure

/-- `static void reqire_extension(const char * extension, int gl_version =
GLAD_GL_VERSION_4_4)` (sic) — identical body to `require_extension` in
`fill_ssbo_coherent.cpp`, including the literal `"extension"` in the
`glfwExtensionSupported` call. -/
def reqire_extension (extSupported : String → Bool) (ext_name : String)
    (gl_version : Bool) : Option (ExitCode × String) :=
  if !gl_version && !extSupported "extension" then
    some (ExitCode.skip, "error: " ++ ext_name ++ " not supported")
  else
    none

/-- Driver/OS-dependent inputs of one run of `map_and_draw_coherent`. -/
structure MapDrawEnv where
  /-- `glfwCreateWindow` returned a non-null window. -/
  windowOk : Bool
  /-- `gladLoadGLLoader` succeeded. -/
  gladOk : Bool
  /-- `GLAD_GL_VERSION_4_4` is nonzero. -/
  gl44 : Bool
  /-- `glfwExtensionSupported`. -/
  extSupported : String → Bool
  /-- `glGetError()` at the first `check_error()` of `setup_buffers`. -/
  allocError1 : Nat
  /-- `glGetError()` at the second `check_error()` of `setup_buffers`. -/
  allocError2 : Nat
  /-- `glCheckFramebufferStatus(GL_FRAMEBUFFER) == GL_FRAMEBUFFER_COMPLETE`. -/
  fbComplete : Bool
  /-- The pixels the draw loop renders into the framebuffer.  The program
  never reads them back (the `probe` function is commented out). -/
  pixels : Nat → Int

/-- The four `reqire_extension` calls at the top of `setup_buffers`, in
source order. -/
def reqire_all (extSupported : String → Bool) (gl44 : Bool) :
    Option (ExitCode × String) :=
  (reqire_extension extSupported "GL_ARB_uniform_buffer_object" gl44).orElse fun _ =>
  (reqire_extension extSupported "GL_ARB_buffer_storage" gl44).orElse fun _ =>
  (reqire_extension extSupported "GL_ARB_map_buffer_range" gl44).orElse fun _ =>
  reqire_extension extSupported "GL_VMWX_map_buffer_debug" gl44

/-- `static bool setup_buffers(int width, int height)`: requires the four
extensions (each can `exit`), allocates and maps the SSBO
(`check_error`), sets up the framebuffer/renderbuffer, vertex and index
buffers, and returns `false` when the framebuffer is incomplete —
reaching the second `check_error` only when it is complete.
`Except.error e` models the process exiting with code `e` from inside. -/
def setup_buffers (env : MapDrawEnv) : Except ExitCode Bool :=
  match reqire_all env.extSupported env.gl44 with
  | some (e, _) => Except.error e
  | none =>
    match check_error env.allocError1 with
    | some e => Except.error e
    | none =>
      if !env.fbComplete then Except.ok false
      else
        match check_error env.allocError2 with
        | some e => Except.error e
        | none => Except.ok true

/-- `int main(int argc, char** argv)` of `map_and_draw_coherent.cpp`.
`pass` is initialised to `true` and never assigned again: the four
`probe(...)` calls after the draw loop are commented out, so both
`return pass ? 0 : EXIT_FAILURE` statements return 0.  The draw loop
(`draw`) renders until the window is closed and does not touch `pass`
either; its rendered pixels (`env.pixels`) are never consulted. -/
def main (argv : List String) (env : MapDrawEnv) : ExitCode :=
  if !env.windowOk then ExitCode.skip
  else if !env.gladOk then ExitCode.failure
  else
    let pass := true
    match setup_buffers env with
    | Except.error e => e
    | Except.ok false => if pass then ExitCode.success else ExitCode.failure
    | Except.ok true =>
      -- generateVerticles / generate_colors / draw, then the commented-out
      -- probes; pass is unchanged.
      if pass then ExitCode.success else ExitCode.failure

/-- Descending `for`-loop `for (int y = hi; y >= lo; y -= step)` collecting
the loop-variable values; the fuel argument is an upper bound on the
iteration count (sufficient whenever `step ≥ 1`). -/
def yLoopAux (lo step : Int) : Nat → Int → List Int
  | 0, _ => []
  | n + 1, y => if y ≥ lo then y :: yLoopAux lo step n (y - step) else []

/-- The values taken by `y` in `for (int y = hi; y >= lo; y -= step)`. -/
def yLoop (hi lo step : Int) : List Int :=
  yLoopAux lo step ((hi - lo).toNat + 1) hi

/-- Ascending `for`-loop `for (int x = lo; x <= hi; x += step)` collecting
the loop-variable values. -/
def xLoopAux (hi step : Int) : Nat → Int → List Int
  | 0, _ => []
  | n + 1, x => if x ≤ hi then x :: xLoopAux hi step n (x + step) else []

/-- The values taken by `x` in `for (int x = lo; x <= hi; x += step)`. -/
def xLoop (lo hi step : Int) : List Int :=
  xLoopAux hi step ((hi - lo).toNat + 1) lo

/-- The vertex grid written by the first half of
`void generateVerticles(int width, int height, int step)`: one `(x, y)`
lattice point per vertex, `y` from `height/2` down to `-(height/2)` in
steps of `step`, `x` from `-(width/2)` up to `width/2`.  (Each vertex
stores the three floats `x/(width/2)`, `y/(height/2)`, `0.0f`; the claims
only concern the number of vertices, so the lattice point stands for the
vertex.) -/
def generateVerticles_grid (width height step : Int) : List (Int × Int) :=
  (yLoop (height / 2) (0 - height / 2) step).flatMap fun y =>
    (xLoop (0 - width / 2) (width / 2) step).map fun x => (x, y)

/-- The index values written by the second half of `generateVerticles` into
the (persistently mapped) element buffer, in write order, with
`cols = width / step`, `rows = height / step`:
per row `y` a leading `y*(cols+1)`, then for `x = 0..cols` the pair
`y*(cols+1)+x`, `(y+1)*(cols+1)+x`, then a trailing
`(y+1)*(cols+1)+(cols-1)` (all cast to `unsigned int`). -/
def generateVerticles_indexes (width height step : Int) : List Nat :=
  let cols := width / step
  let rows := height / step
  (List.range rows.toNat).flatMap fun yn =>
    let y : Int := yn
    ((y * (cols + 1)).toNat ::
      ((List.range (cols + 1).toNat).flatMap fun xn =>
        let x : Int := xn
        [(y * (cols + 1) + x).toNat, ((y + 1) * (cols + 1) + x).toNat]) ++
      [((y + 1) * (cols + 1) + (cols - 1)).toNat])

/-- `indexes_count` as set by `generateVerticles` (the number of index
values written), which `draw` then passes to `glDrawElements`. -/
def indexes_count (width height step : Int) : Nat :=
  (generateVerticles_indexes width height step).length

/-- A run of `map_and_draw_coherent` in which everything the driver
controls succeeds. -/
def envOk : MapDrawEnv :=
  ⟨true, true, true, fun _ => false, 0, 0, true, fun _ => 0⟩

end MapDraw

/-! ## Theorems -/

/-- Claim C1 (refuted by the code — code bug): the claim states that
`main`'s return value is 0 if and only if `test_script` returned true for
every entry of `test_cases`.  The final statement of `main` is however
`return 0 ;` with the pass-dependent exit `pass ? 0 : EXIT_FAILURE` left
in a comment: in a run where every `test_script` call fails (and is
reported on stdout), the process still exits 0. -/
theorem fill_main_success_despite_failures :
    (FillSsbo.main [] FillSsbo.fillEnvAllFail).1 = ExitCode.success ∧
    FillSsbo.fillEnvAllFail.testResult 0 = false ∧
    (FillSsbo.main [] FillSsbo.fillEnvAllFail).2.length = 7 := by
  refine ⟨rfl, rfl, ?_⟩
  decide

/-- Claim C2: `check_error` returns normally iff the error code is
`GL_NO_ERROR`, exits with the skip sentinel iff it is `GL_OUT_OF_MEMORY`,
and exits with `EXIT_FAILURE` for every other code — and the
`check_error` of `map_and_draw_coherent.cpp` behaves identically. -/
theorem check_error_spec (e : Nat) :
    (FillSsbo.check_error e = none ↔ e = FillSsbo.GL_NO_ERROR) ∧
    (FillSsbo.check_error e = some ExitCode.skip ↔ e = FillSsbo.GL_OUT_OF_MEMORY) ∧
    (e ≠ FillSsbo.GL_NO_ERROR → e ≠ FillSsbo.GL_OUT_OF_MEMORY →
      FillSsbo.check_error e = some ExitCode.failure) ∧
    MapDraw.check_error e = FillSsbo.check_error e := by
  unfold FillSsbo.check_error MapDraw.check_error FillSsbo.GL_NO_ERROR
    FillSsbo.GL_OUT_OF_MEMORY
  split_ifs with h1 h2 <;> simp_all

/-- Witness for C2 at concrete error codes. -/
theorem check_error_spec_witness :
    FillSsbo.check_error 1285 = some ExitCode.skip ∧ MapDraw.check_error 3 = some ExitCode.failure := by
  refine ⟨(check_error_spec 1285).2.1.mpr rfl, ?_⟩
  rw [(check_error_spec 3).2.2.2]
  exact (check_error_spec 3).2.2.1 (by decide) (by decide)

/-- Claim C3 (refuted by the code — code bug): `require_extension` /
`reqire_extension` are meant to skip when the named extension is missing
and GL 4.4 is unavailable, and to continue only when the feature is
available; but the source queries `glfwExtensionSupported("extension")` —
the literal string — instead of the parameter.  With a driver that
supports all four required extensions (but none literally named
`"extension"`) and no GL 4.4, the call still exits with `EXIT_SKIP`; and
with GL 4.4 present it continues even when nothing is supported. -/
theorem reqire_extension_literal_bug :
    (FillSsbo.suppFour "GL_ARB_buffer_storage" = true ∧
     FillSsbo.require_extension FillSsbo.suppFour "GL_ARB_buffer_storage" false =
       some (ExitCode.skip, "error: GL_ARB_buffer_storage not supported") ∧
     MapDraw.reqire_extension FillSsbo.suppFour "GL_ARB_buffer_storage" false =
       some (ExitCode.skip, "error: GL_ARB_buffer_storage not supported")) ∧
    (FillSsbo.require_extension (fun _ => false) "GL_VMWX_map_buffer_debug" true = none ∧
     MapDraw.reqire_extension (fun _ => false) "GL_VMWX_map_buffer_debug" true = none) := by
  exact ⟨⟨by decide, rfl, rfl⟩, rfl, rfl⟩

/-- Counterexample for C4 as stated: with 4096-byte pages, the number of
generated offsets that sit exactly 4 bytes before or after a page
boundary is not three. -/
theorem init_test_cases_not_three_near_boundary :
    ((FillSsbo.init_test_cases 4096).filter (FillSsbo.near_page_boundary 4096)).length ≠ 3 := by
  decide

/-- Claim C4 (amended): `init_test_cases` produces exactly the seven
claimed stride/offset pairs — `{2, 0}` and then stride `p` with offsets
`p, p-4, p+4, 2p, 2p+4, 2p-4` — and *four* (not three) of the offsets sit
exactly 4 bytes before or after a page boundary. -/
theorem init_test_cases_spec (p : Nat) (h8 : 8 ≤ p) (h32 : 2 * p + 4 < FillSsbo.U32) :
    FillSsbo.init_test_cases p =
      [⟨2, 0⟩, ⟨p, p⟩, ⟨p, p - 4⟩, ⟨p, p + 4⟩, ⟨p, 2 * p⟩, ⟨p, 2 * p + 4⟩, ⟨p, 2 * p - 4⟩] ∧
    ((FillSsbo.init_test_cases p).filter (FillSsbo.near_page_boundary p)).length = 4 := by
  have hlist : FillSsbo.init_test_cases p =
      [⟨2, 0⟩, ⟨p, p⟩, ⟨p, p - 4⟩, ⟨p, p + 4⟩, ⟨p, 2 * p⟩, ⟨p, 2 * p + 4⟩, ⟨p, 2 * p - 4⟩] := by
    simp only [FillSsbo.init_test_cases, FillSsbo.u32sub, FillSsbo.u32, FillSsbo.U32]
    simp only [FillSsbo.U32] at h32
    simp only [List.cons.injEq, FillSsbo.test_case.mk.injEq, and_true, true_and]
    omega
  have m0 : 0 % p = 0 := Nat.zero_mod p
  have m1 : p % p = 0 := Nat.mod_self p
  have m2 : (p - 4) % p = p - 4 := Nat.mod_eq_of_lt (by omega)
  have m3 : (p + 4) % p = 4 := by
    rw [Nat.add_mod_left]
    exact Nat.mod_eq_of_lt (by omega)
  have m4 : (2 * p) % p = 0 := by
    have h : 2 * p = p + p := by omega
    rw [h, Nat.add_mod_left, Nat.mod_self]
  have m5 : (2 * p + 4) % p = 4 := by
    have h : 2 * p + 4 = p + (p + 4) := by omega
    rw [h, Nat.add_mod_left]
    exact m3
  have m6 : (2 * p - 4) % p = p - 4 := by
    have h : 2 * p - 4 = p + (p - 4) := by omega
    rw [h, Nat.add_mod_left]
    exact m2
  have hna : ¬(0 = 4) := by omega
  have hnb : ¬((0 : Nat) = p - 4) := by omega
  refine ⟨hlist, ?_⟩
  rw [hlist]
  simp [FillSsbo.near_page_boundary, List.filter, m0, m1, m2, m3, m4, m5, m6, hna, hnb]

/-- Witness for C4 at the common 4096-byte page size. -/
theorem init_test_cases_spec_witness :
    FillSsbo.init_test_cases 4096 =
      [⟨2, 0⟩, ⟨4096, 4096⟩, ⟨4096, 4092⟩, ⟨4096, 4100⟩, ⟨4096, 8192⟩, ⟨4096, 8196⟩,
       ⟨4096, 8188⟩] ∧
    ((FillSsbo.init_test_cases 4096).filter (FillSsbo.near_page_boundary 4096)).length = 4 :=
  init_test_cases_spec 4096 (by decide) (by decide)

/-- Claim C7: `map_and_draw_coherent` performs no pixel assertions — in
every run in which `setup_buffers` returns true and the draw loop
completes, the process exits 0, and the exit code does not depend on the
rendered pixel contents (the `probe` comparing read-back pixels to the
SSBO colors is commented out). -/
theorem mapdraw_no_pixel_assertions (argv : List String) (env : MapDraw.MapDrawEnv)
    (p : Nat → Int) (hw : env.windowOk = true) (hg : env.gladOk = true)
    (hs : MapDraw.setup_buffers env = Except.ok true) :
    MapDraw.main argv env = ExitCode.success ∧
    MapDraw.main argv { env with pixels := p } = MapDraw.main argv env := by
  constructor
  · simp [MapDraw.main, hw, hg, hs]
  · rfl

/-- Witness for C7: a fully successful environment. -/
theorem mapdraw_no_pixel_assertions_witness :
    MapDraw.main [] MapDraw.envOk = ExitCode.success ∧
    MapDraw.main [] { MapDraw.envOk with pixels := fun _ => 1 } =
      MapDraw.main [] MapDraw.envOk :=
  mapdraw_no_pixel_assertions [] MapDraw.envOk (fun _ => 1) rfl rfl rfl

/-- Claim C8: both `main` functions ignore `argc`/`argv` entirely — for
any two argument vectors and the same driver environment, the run (its
exit code and its printed output) is identical. -/
theorem mains_ignore_argv :
    (∀ (argv1 argv2 : List String) (env : FillSsbo.FillEnv),
      FillSsbo.main argv1 env = FillSsbo.main argv2 env) ∧
    (∀ (argv1 argv2 : List String) (env : MapDraw.MapDrawEnv),
      MapDraw.main argv1 env = MapDraw.main argv2 env) :=
  ⟨fun _ _ _ => rfl, fun _ _ _ => rfl⟩

/-- Claim C5: for every test case, `test_script` sets up exactly three
coherent SSBOs; `init_ssbo` fills all `values_count * 4` bytes of each
with the byte pattern of `fill_value_a` via `memset`, and `map_ssbo` then
fills the mapped suffix `[offset, values_count * 4)` — that is,
`values_count * 4 - offset` bytes — with the byte pattern of
`fill_value_b`. -/
theorem test_script_cpu_fills (one : FillSsbo.test_case) (u1 u2 u3 : FillSsbo.Buffer) :
    (FillSsbo.test_script_buffers one u1 u2 u3).length = 3 ∧
    (∀ (u : FillSsbo.Buffer) (i : Nat), i < FillSsbo.values_count * 4 →
      FillSsbo.init_ssbo u i = FillSsbo.byte_of_int FillSsbo.fill_value_a) ∧
    (∀ b ∈ FillSsbo.test_script_buffers one u1 u2 u3, ∀ i : Nat,
      one.offset ≤ i → i < FillSsbo.values_count * 4 →
      b i = FillSsbo.byte_of_int FillSsbo.fill_value_b) := by
  have hval : FillSsbo.values_count = 45000 := rfl
  refine ⟨rfl, ?_, ?_⟩
  · intro u i hi
    unfold FillSsbo.init_ssbo FillSsbo.memset
    rw [if_pos ⟨Nat.zero_le i, by omega⟩]
  · intro b hb i hoff hi
    rw [hval] at hi
    have hone : b = FillSsbo.map_ssbo (FillSsbo.init_ssbo u1) one.offset ∨
        b = FillSsbo.map_ssbo (FillSsbo.init_ssbo u2) one.offset ∨
        b = FillSsbo.map_ssbo (FillSsbo.init_ssbo u3) one.offset := by
      simpa [FillSsbo.test_script_buffers] using hb
    rcases hone with rfl | rfl | rfl <;>
      · unfold FillSsbo.map_ssbo FillSsbo.memset
        rw [if_pos ⟨hoff, by rw [hval]; omega⟩]

/-- Witness for C5 at a concrete offset and index. -/
theorem test_script_cpu_fills_witness :
    FillSsbo.init_ssbo (fun _ => 0) 5 = FillSsbo.byte_of_int FillSsbo.fill_value_a ∧
    FillSsbo.map_ssbo (FillSsbo.init_ssbo (fun _ => 0)) 8 9 =
      FillSsbo.byte_of_int FillSsbo.fill_value_b :=
  ⟨(test_script_cpu_fills ⟨2, 8⟩ (fun _ => 0) (fun _ => 0) (fun _ => 0)).2.1
      (fun _ => 0) 5 (by decide),
   (test_script_cpu_fills ⟨2, 8⟩ (fun _ => 0) (fun _ => 0) (fun _ => 0)).2.2
      (FillSsbo.map_ssbo (FillSsbo.init_ssbo (fun _ => 0)) 8)
      (List.Mem.head _) 9 (by decide) (by decide)⟩

/-- Writing a buffer through any list of `compute_exec` stages never
changes an element whose index is below the test case's offset, because
every dispatch clamps its `start_bound` uniform to at least `one.offset`. -/
theorem run_stages_preserves_low (one : FillSsbo.test_case)
    (stages : List (Nat × Nat × Int)) (buf : FillSsbo.EBuffer) (i : Nat)
    (hi : i < one.offset) :
    FillSsbo.run_stages one stages buf i = buf i := by
  induction stages generalizing buf with
  | nil => rfl
  | cons s rest ih =>
    have hstep : FillSsbo.run_stages one (s :: rest) buf =
        FillSsbo.run_stages one rest (FillSsbo.compute_exec one s.1 s.2.1 s.2.2 buf) := rfl
    rw [hstep, ih]
    unfold FillSsbo.compute_exec FillSsbo.compute_shader_write
    rw [if_neg]
    intro h
    have hmax := le_trans (le_max_left one.offset s.1) h.2.1
    omega

/-- Claim C9: in every `compute_exec` call the `start_bound` uniform is
`max(one.offset, start_bound)`, hence at least the test case's offset; the
compute shader writes `data[x]` only for `start_bound <= x < end_bound`,
so no dispatch targets an element index below `offset`, and after any
sequence of stages the prefix of `offset` bytes (elements
`[0, offset / 4)`, for the 4-byte-aligned offsets the program uses) still
holds `fill_value_a`, which `probe_offseted_part_of_ssbo` confirms. -/
theorem compute_exec_prefix_untouched (one : FillSsbo.test_case)
    (stages : List (Nat × Nat × Int)) (u : FillSsbo.EBuffer)
    (h4 : one.offset % 4 = 0) (hoff : one.offset / 4 ≤ FillSsbo.values_count) :
    (∀ s ∈ stages, one.offset ≤ max one.offset s.1) ∧
    (∀ i : Nat, i < one.offset / 4 →
      FillSsbo.run_stages one stages
        (FillSsbo.map_ssbo_elems (FillSsbo.init_ssbo_elems u) (one.offset / 4)) i =
        FillSsbo.fill_value_a) ∧
    FillSsbo.probe_offseted_part_of_ssbo
      (FillSsbo.run_stages one stages
        (FillSsbo.map_ssbo_elems (FillSsbo.init_ssbo_elems u) (one.offset / 4))) one = true := by
  have base : ∀ i : Nat, i < one.offset / 4 →
      FillSsbo.map_ssbo_elems (FillSsbo.init_ssbo_elems u) (one.offset / 4) i =
        FillSsbo.fill_value_a := by
    intro i hi
    unfold FillSsbo.map_ssbo_elems FillSsbo.init_ssbo_elems
    rw [if_neg (by omega), if_pos (by omega)]
  have hmain : ∀ i : Nat, i < one.offset / 4 →
      FillSsbo.run_stages one stages
        (FillSsbo.map_ssbo_elems (FillSsbo.init_ssbo_elems u) (one.offset / 4)) i =
        FillSsbo.fill_value_a := by
    intro i hi
    rw [run_stages_preserves_low one stages _ i (by omega)]
    exact base i hi
  refine ⟨fun s _ => le_max_left _ _, hmain, ?_⟩
  unfold FillSsbo.probe_offseted_part_of_ssbo
  split
  · rfl
  · rw [List.all_eq_true]
    intro i hi
    rw [hmain i (List.mem_range.mp hi)]
    exact beq_self_eq_true _

/-- Witness for C9 at a concrete aligned offset and stage list. -/
theorem compute_exec_prefix_untouched_witness :
    FillSsbo.run_stages ⟨2, 8⟩ [(0, 45000, 5)]
      (FillSsbo.map_ssbo_elems (FillSsbo.init_ssbo_elems (fun _ => 0)) (8 / 4)) 1 =
      FillSsbo.fill_value_a ∧
    FillSsbo.probe_offseted_part_of_ssbo
      (FillSsbo.run_stages ⟨2, 8⟩ [(0, 45000, 5)]
        (FillSsbo.map_ssbo_elems (FillSsbo.init_ssbo_elems (fun _ => 0)) (8 / 4))) ⟨2, 8⟩ =
      true :=
  ⟨(compute_exec_prefix_untouched ⟨2, 8⟩ [(0, 45000, 5)] (fun _ => 0)
      (by decide) (by decide)).2.1 1 (by decide),
   (compute_exec_prefix_untouched ⟨2, 8⟩ [(0, 45000, 5)] (fun _ => 0)
      (by decide) (by decide)).2.2⟩

/-- `uint32_t` subtraction agrees with `Nat` subtraction when it cannot
wrap. -/
theorem u32sub_eq_sub (a b : Nat) (hb : b ≤ a) (ha : a < FillSsbo.U32) :
    FillSsbo.u32sub a b = a - b := by
  unfold FillSsbo.u32sub FillSsbo.u32 FillSsbo.U32 at *
  omega

/-- Bit patterns below 2^31 denote themselves as `int` values. -/
theorem toInt32_small (n : Nat) (h : n < 2147483648) : FillSsbo.toInt32 n = Int.ofNat n := by
  unfold FillSsbo.toInt32
  rw [if_pos h]
  rfl

/-- Counterexample for C6 as stated: in Stage 1 of `test_script` on
`test_cases[1]` (4096-byte pages: stride 4096, offset 4096, probing
`[0, one_third)` for `modifed_value`), with a mapped region that still
reads back `fill_value_b` everywhere (the dispatch had no visible
effect), `probe_value_in_range` returns `true` — the claimed equivalent
condition is false at index 3072 (whose shifted index 4096 is a multiple
of the stride but which holds `fill_value_b`, not the value): because
`start_bound = 0` is below `offset / 4 = 1024`, the second loop's
unsigned initial index wraps around to 2^32 - 1024 and the loop body
never executes. -/
theorem probe_value_in_range_claim_false :
    ¬ (((FillSsbo.probe_value_in_range FillSsbo.dataB FillSsbo.first_page_case 0
          FillSsbo.one_third FillSsbo.modifed_value).ok = true) ↔
       ((∀ i : Nat, i < FillSsbo.values_count - FillSsbo.first_page_case.offset / 4 →
           (i + FillSsbo.first_page_case.offset / 4) % FillSsbo.first_page_case.stride ≠ 0 →
           FillSsbo.dataB i = FillSsbo.fill_value_b) ∧
        (∀ i : Int,
           (0 : Int) - ((FillSsbo.first_page_case.offset / 4 : Nat) : Int) ≤ i →
           i < ((FillSsbo.one_third : Nat) : Int) -
             ((FillSsbo.first_page_case.offset / 4 : Nat) : Int) →
           (i + ((FillSsbo.first_page_case.offset / 4 : Nat) : Int)) %
             ((FillSsbo.first_page_case.stride : Nat) : Int) = 0 →
           FillSsbo.dataB i = FillSsbo.modifed_value))) := by
  intro h
  have h1 : FillSsbo.probe_loop1 FillSsbo.dataB FillSsbo.first_page_case = none :=
    List.find?_eq_none.mpr (fun x _ => by simp [FillSsbo.probe_pred1, FillSsbo.dataB])
  have h2 : FillSsbo.probe_loop2 FillSsbo.dataB FillSsbo.first_page_case 0
      FillSsbo.one_third FillSsbo.modifed_value = none := by decide
  have hok : (FillSsbo.probe_value_in_range FillSsbo.dataB FillSsbo.first_page_case 0
      FillSsbo.one_third FillSsbo.modifed_value).ok = true := by
    unfold FillSsbo.probe_value_in_range
    rw [h1, h2]
  have hx := (h.mp hok).2 3072 (by decide) (by decide) (by decide)
  exact absurd hx (by decide)

/-- Claim C6 (amended): when both `start_bound` and `end_bound` are at
least `one.offset / 4` (and `end_bound` is at most `values_count`),
`probe_value_in_range` returns true if and only if every index of the
mapped region whose shifted index is not a multiple of the stride holds
`fill_value_b` and every index in
`[start_bound - one.offset/4, end_bound - one.offset/4)` whose shifted
index is a multiple of the stride holds `value`; whenever it returns
false it has printed exactly the one mismatching index and the value read
there.  (When `start_bound < one.offset / 4` — as in every call on a
nonzero-offset test case, where `start_bound` is 0 or the offset exceeds
`4 * start_bound` — the unsigned subtraction `start_bound - offset/4`
wraps and the second check is skipped entirely, per the
counterexample.) -/
theorem probe_value_in_range_spec (data : Int → Int) (one : FillSsbo.test_case)
    (sb eb : Nat) (v : Int)
    (ho32 : one.offset < FillSsbo.U32) (hs32 : sb < FillSsbo.U32) (he32 : eb < FillSsbo.U32)
    (hs : one.offset / 4 ≤ sb) (he : one.offset / 4 ≤ eb)
    (hev : eb ≤ FillSsbo.values_count) :
    ((FillSsbo.probe_value_in_range data one sb eb v).ok = true ↔
      ((∀ i : Nat, i < FillSsbo.values_count - one.offset / 4 →
          (i + one.offset / 4) % one.stride ≠ 0 → data i = FillSsbo.fill_value_b) ∧
       (∀ i : Nat, sb - one.offset / 4 ≤ i → i < eb - one.offset / 4 →
          (i + one.offset / 4) % one.stride = 0 → data i = v))) ∧
    ((FillSsbo.probe_value_in_range data one sb eb v).ok = false →
      ∃ j : Int, (FillSsbo.probe_value_in_range data one sb eb v).printed = [(j, data j)]) := by
  have hval : FillSsbo.values_count = 45000 := rfl
  have hU : FillSsbo.U32 = 4294967296 := rfl
  have hu32off : FillSsbo.u32 one.offset = one.offset := by
    unfold FillSsbo.u32
    exact Nat.mod_eq_of_lt ho32
  have hoffv : one.offset / 4 ≤ FillSsbo.values_count := le_trans he hev
  have hb1 : FillSsbo.u32sub FillSsbo.values_count (one.offset / 4) =
      FillSsbo.values_count - one.offset / 4 :=
    u32sub_eq_sub _ _ hoffv (by rw [hval, hU]; omega)
  have hs2 : FillSsbo.u32sub sb (one.offset / 4) = sb - one.offset / 4 :=
    u32sub_eq_sub _ _ hs hs32
  have he2 : FillSsbo.u32sub eb (one.offset / 4) = eb - one.offset / 4 :=
    u32sub_eq_sub _ _ he he32
  have l1 : FillSsbo.probe_loop1 data one = none ↔
      (∀ i : Nat, i < FillSsbo.values_count - one.offset / 4 →
        (i + one.offset / 4) % one.stride ≠ 0 → data i = FillSsbo.fill_value_b) := by
    unfold FillSsbo.probe_loop1
    rw [hu32off, hb1, List.find?_eq_none]
    constructor
    · intro h i hi hmod
      have hx := h i (List.mem_range.mpr hi)
      unfold FillSsbo.probe_pred1 at hx
      simp only [Bool.and_eq_true, decide_eq_true_eq, not_and, ne_eq, not_not] at hx
      have hiu : FillSsbo.u32 (i + one.offset / 4) = i + one.offset / 4 := by
        unfold FillSsbo.u32 FillSsbo.U32
        rw [hval] at hi
        omega
      rw [hiu] at hx
      exact hx hmod
    · intro hc x hx
      have hxr := List.mem_range.mp hx
      unfold FillSsbo.probe_pred1
      simp only [Bool.and_eq_true, decide_eq_true_eq, not_and, ne_eq, not_not]
      intro hA
      have hiu : FillSsbo.u32 (x + one.offset / 4) = x + one.offset / 4 := by
        unfold FillSsbo.u32 FillSsbo.U32
        rw [hval] at hxr
        omega
      rw [hiu] at hA
      exact hc x hxr hA
  have l2 : FillSsbo.probe_loop2 data one sb eb v = none ↔
      (∀ i : Nat, sb - one.offset / 4 ≤ i → i < eb - one.offset / 4 →
        (i + one.offset / 4) % one.stride = 0 → data i = v) := by
    unfold FillSsbo.probe_loop2
    rw [hu32off, hs2, he2, List.find?_eq_none]
    constructor
    · intro h i h1 h2
      have hmem : i ∈ (List.range (eb - one.offset / 4 - (sb - one.offset / 4))).map
          (fun k => sb - one.offset / 4 + k) :=
        List.mem_map.mpr ⟨i - (sb - one.offset / 4), List.mem_range.mpr (by omega), by omega⟩
      have hx := h i hmem
      unfold FillSsbo.probe_pred2 at hx
      simp only [Bool.and_eq_true, decide_eq_true_eq, not_and, ne_eq, not_not] at hx
      have hiu2 : FillSsbo.u32 (i + one.offset / 4) = i + one.offset / 4 := by
        unfold FillSsbo.u32 FillSsbo.U32
        rw [hval] at hev
        omega
      have ht : FillSsbo.toInt32 i = Int.ofNat i :=
        toInt32_small i (by rw [hval] at hev; omega)
      rw [hiu2, ht] at hx
      exact hx
    · intro hc x hx
      obtain ⟨k, hk, rfl⟩ := List.mem_map.mp hx
      have hkr := List.mem_range.mp hk
      unfold FillSsbo.probe_pred2
      simp only [Bool.and_eq_true, decide_eq_true_eq, not_and, ne_eq, not_not]
      intro hA
      have h2 : sb - one.offset / 4 + k < eb - one.offset / 4 := by omega
      have hiu2 : FillSsbo.u32 (sb - one.offset / 4 + k + one.offset / 4) =
          sb - one.offset / 4 + k + one.offset / 4 := by
        unfold FillSsbo.u32 FillSsbo.U32
        rw [hval] at hev
        omega
      have ht : FillSsbo.toInt32 (sb - one.offset / 4 + k) =
          Int.ofNat (sb - one.offset / 4 + k) :=
        toInt32_small _ (by rw [hval] at hev; omega)
      rw [ht]
      rw [hiu2] at hA
      exact hc _ (Nat.le_add_right _ _) h2 hA
  have hmain : (FillSsbo.probe_value_in_range data one sb eb v).ok = true ↔
      (FillSsbo.probe_loop1 data one = none ∧
       FillSsbo.probe_loop2 data one sb eb v = none) := by
    unfold FillSsbo.probe_value_in_range
    rcases h1 : FillSsbo.probe_loop1 data one with _ | i
    · rcases h2 : FillSsbo.probe_loop2 data one sb eb v with _ | u
      · simp
      · simp
    · simp
  have hprint : (FillSsbo.probe_value_in_range data one sb eb v).ok = false →
      ∃ j : Int, (FillSsbo.probe_value_in_range data one sb eb v).printed = [(j, data j)] := by
    unfold FillSsbo.probe_value_in_range
    rcases h1 : FillSsbo.probe_loop1 data one with _ | i
    · rcases h2 : FillSsbo.probe_loop2 data one sb eb v with _ | u
      · intro hfalse
        simp at hfalse
      · intro _
        exact ⟨FillSsbo.toInt32 u, rfl⟩
    · intro _
      exact ⟨Int.ofNat i, rfl⟩
  exact ⟨hmain.trans (and_congr l1 l2), hprint⟩

/-- Witness for C6 on `test_cases[0]` (offset 0, stride 2) over the whole
buffer: with every element reading `fill_value_b` and the probed value
also `fill_value_b`, both claimed conditions hold and the theorem yields
that the probe passes. -/
theorem probe_value_in_range_spec_witness :
    (FillSsbo.probe_value_in_range FillSsbo.dataB ⟨2, 0⟩ 0 45000 FillSsbo.fill_value_b).ok =
      true :=
  (probe_value_in_range_spec FillSsbo.dataB ⟨2, 0⟩ 0 45000 FillSsbo.fill_value_b
    (by decide) (by decide) (by decide) (by decide) (by decide) (by decide)).1.mpr
    ⟨fun i _ _ => rfl, fun i _ _ _ => rfl⟩

/-- The sum of a list map whose values are constant. -/
theorem sum_map_eq_of_const {A : Type} (l : List A) (f : A → Nat) (c : Nat)
    (h : ∀ a ∈ l, f a = c) : (l.map f).sum = l.length * c := by
  have hm : l.map f = l.map (fun _ => c) := List.map_congr_left h
  rw [hm, List.map_const', List.sum_replicate, smul_eq_mul]

set_option maxRecDepth 16000 in
/-- Claim C10: with the hard-coded `width = 256`, `height = 256`,
`step = 8`, `generateVerticles` writes `(height/step + 1) * (width/step + 1)
= 1089` vertices, sets `indexes_count` to
`(height/step) * (2 * (width/step + 1) + 2) = 2176`, and every index value
written into the element buffer is strictly below the vertex count 1089. -/
theorem generateVerticles_spec :
    (MapDraw.generateVerticles_grid 256 256 8).length = (256 / 8 + 1) * (256 / 8 + 1) ∧
    (MapDraw.generateVerticles_grid 256 256 8).length = 1089 ∧
    MapDraw.indexes_count 256 256 8 = (256 / 8) * (2 * (256 / 8 + 1) + 2) ∧
    MapDraw.indexes_count 256 256 8 = 2176 ∧
    (MapDraw.generateVerticles_indexes 256 256 8).all (fun v => decide (v < 1089)) = true := by
  have hc : MapDraw.indexes_count 256 256 8 = 2176 := by
    unfold MapDraw.indexes_count MapDraw.generateVerticles_indexes
    rw [List.length_flatMap, ← List.map_map]
    rw [sum_map_eq_of_const _ List.length 68 ?hrow]
    case hrow =>
      intro b hb
      obtain ⟨yn, _, rfl⟩ := List.mem_map.mp hb
      simp only [List.length_cons, List.length_append, List.length_flatMap, ← List.map_map]
      rw [sum_map_eq_of_const _ List.length 2 ?hcell]
      case hcell =>
        intro c hc
        obtain ⟨xn, _, rfl⟩ := List.mem_map.mp hc
        rfl
      simp
    simp
  refine ⟨by decide, by decide, ?_, hc, by decide⟩
  rw [hc]
